import Mathlib

/-!
Verification development for the FetchWrapper repository (lynn1286/FetchWrapper).

The repository contains several evolution variants of the same client-side
HTTP pipeline.  We shallowly embed the variants the claims refer to:

* `FW.InterceptorManager` — the interceptor manager of `src/unnamed/part_002`
  (second document), which is the manager imported by `src/index.ts`
  (`use` / `runHandlers` over a typed value, with optional `fulfilled` /
  `rejected` entries).
* `FW.FetchWrapper` — the wrapper of `src/index.ts` (constructor defaults via
  JavaScript `||`, per-call overrides via `!== undefined`, `fetchWithTimeout`,
  `retryFetch`, `request`).
* `FW.FetchWrapper0` — the wrapper of `src/unnamed/part_000` (first document):
  `applyInterceptors`, `fetchWithTimeout`, `retryFetch` (with separate 5xx /
  429 branches), and `request` with the ok-check and the call-level
  rejected-handler funnel scan.

Effectful TypeScript (async functions that can throw) is embedded as pure
functions into `Except Err α`; the transport (`fetch`) is a parameter mapping
the attempt index to its outcome; timers and waits are recorded as data
(`timerCleared`, the list of backoff waits) rather than as real time.
-/

namespace FW

/-- JavaScript `Error` values thrown by the pipeline.  Message strings are
identified by their construction site; `user n` stands for an arbitrary
error raised by a caller-supplied interceptor handler. -/
inductive Err where
  /-- `new Error('Request timed out')` raised by `fetchWithTimeout`. -/
  | timedOut : Err
  /-- `new Error('Network response was not ok: ${status}')` raised inside `retryFetch`. -/
  | notOkStatus (status : Nat) : Err
  /-- `new Error('Rate Limit Exceeded: ${status}')` raised by part_000's `retryFetch`. -/
  | rateLimited (status : Nat) : Err
  /-- `new Error('Network response was not ok')` raised by part_000's `request`. -/
  | notOk : Err
  /-- `new Error('Maximum retries exceeded')` after the retry loop. -/
  | maxRetries : Err
  /-- an arbitrary error thrown by a user-supplied handler. -/
  | user (code : Nat) : Err
deriving DecidableEq, Repr

/-- The part of a fetch `Response` the pipeline reads: the status code and the
parsed integer value of the `Retry-After` header when that header is present
(`headers.has('Retry-After')` / `parseInt(headers.get('Retry-After'), 10)`). -/
structure Response where
  status : Nat
  retryAfter : Option Nat := none
deriving DecidableEq, Repr

/-- The `ok` predicate of a fetch `Response`: status in [200, 300). -/
def Response.ok (r : Response) : Bool :=
  200 ≤ r.status && r.status < 300

/-- Outcome of one underlying `fetch(finalResource, options)` call:
it either resolves with a response or rejects (network failure, abort, …). -/
inductive FetchOutcome where
  | resp (r : Response) : FetchOutcome
  | netErr : FetchOutcome
deriving DecidableEq, Repr

/-- The per-call options object (`RequestOptions` in `src/index.ts`): the
underscore-prefixed per-call overrides, plus the `signal` field that
`fetchWithTimeout` mutates in place (modelled as a flag recording whether a
cancellation signal has been attached). -/
structure RequestOptions where
  _timeout : Option Nat := none
  _retries : Option Nat := none
  _retryInterval : Option Nat := none
  _retryOnFail : Option Bool := none
  _apiUrl : Option String := none
  signal : Bool := false
deriving DecidableEq, Repr

/-- `options = {}` — the default argument of `request`. -/
def defaultOptions : RequestOptions := {}

/-- Overwrite the `signal` field of an options object (the in-place mutation
`options.signal = controller.signal`, abstracted to the flag it sets). -/
def setSignal (o : RequestOptions) (b : Bool) : RequestOptions :=
  { o with signal := b }

/-- Constructor configuration (`Config` in `src/index.ts`); every field is
optional.  (The unused `withHeader` field is omitted: no code reads it.) -/
structure Config where
  timeout? : Option Nat := none
  retries? : Option Nat := none
  retryInterval? : Option Nat := none
  retryOnFail? : Option Bool := none
  apiUrl? : Option String := none
deriving DecidableEq, Repr

/-- `new FetchWrapper({})`. -/
def emptyConfig : Config := {}

/-- JavaScript `v || d` for an optional number: `undefined` and `0` are both
falsy, so they yield the default. -/
def jsOrNat (v : Option Nat) (d : Nat) : Nat :=
  match v with
  | none => d
  | some n => if n = 0 then d else n

namespace InterceptorManager

/-- One registered entry of `InterceptorManager` (src/unnamed/part_002, second
document — the manager `src/index.ts` imports): an optional `fulfilled`
transform and an optional `rejected` observer.  `rejected` receives only the
error; its return value is discarded by `runHandlers`, but it may itself
throw (modelled by `Except E Unit`). -/
structure Interceptor (T E : Type) where
  fulfilled : Option (T → Except E T) := none
  rejected : Option (E → Except E Unit) := none

/-- `use(fulfilled?, rejected?)`: push one entry onto the handler list. -/
def use {T E : Type} (handlers : List (Interceptor T E))
    (fulfilled : Option (T → Except E T)) (rejected : Option (E → Except E Unit)) :
    List (Interceptor T E) :=
  handlers ++ [⟨fulfilled, rejected⟩]

/-- `runHandlers(value)`: fold the handler list over the value in registration
order.  For each entry, apply `fulfilled` when present; if it throws, invoke
`rejected` (when present) with the error and then re-throw the original
error — unless `rejected` itself throws, in which case (JavaScript `catch`
semantics) the new error propagates instead and `throw error` is never
reached. -/
def runHandlers {T E : Type} : List (Interceptor T E) → T → Except E T
  | [], value => .ok value
  | en :: rest, value =>
    match en.fulfilled with
    | none => runHandlers rest value
    | some f =>
      match f value with
      | .ok value' => runHandlers rest value'
      | .error e =>
        match en.rejected with
        | none => .error e
        | some rej =>
          match rej e with
          | .ok _ => .error e
          | .error e' => .error e'

end InterceptorManager

/-- A `fulfilled` handler that appends the tag `t` to a list-valued in-flight
value (the tagging interceptors of the ordering property). -/
def appendTag (t : Nat) (v : List Nat) : Except Nat (List Nat) :=
  .ok (v ++ [t])

/-- Registering one tagging interceptor per tag, in the order of `tags`,
via `use`. -/
def registerTags (tags : List Nat) : List (InterceptorManager.Interceptor (List Nat) Nat) :=
  tags.foldl (fun hs t => InterceptorManager.use hs (some (appendTag t)) none) []

/-- Instance state of the `src/index.ts` FetchWrapper: the five configuration
fields set by the constructor, plus the two interceptor chains
(`interceptors.request` over `[string, RequestOptions]` pairs,
`interceptors.response` over `Response`), whose handler lists grow through
`InterceptorManager.use`. -/
structure FetchWrapper where
  timeout : Nat
  retries : Nat
  apiUrl : String
  retryInterval : Nat
  retryOnFail : Bool
  requestInterceptors : List (InterceptorManager.Interceptor (String × RequestOptions) Err) := []
  responseInterceptors : List (InterceptorManager.Interceptor Response Err) := []

namespace FetchWrapper

/-- The `src/index.ts` constructor: numeric defaults are applied with
JavaScript `||` (so an explicit `0` falls back to the default), while
`retryOnFail` is tested with `!== undefined`. -/
def mkWrapper (config : Config) : FetchWrapper where
  timeout := jsOrNat config.timeout? 5000
  retries := jsOrNat config.retries? 3
  apiUrl := config.apiUrl?.getD ""
  retryInterval := jsOrNat config.retryInterval? 1000
  retryOnFail := config.retryOnFail?.getD false

/-- `options._timeout !== undefined ? options._timeout : this.timeout`. -/
def resolveTimeout (w : FetchWrapper) (o : RequestOptions) : Nat :=
  o._timeout.getD w.timeout

/-- `options._retries !== undefined ? options._retries : this.retries`. -/
def resolveRetries (w : FetchWrapper) (o : RequestOptions) : Nat :=
  o._retries.getD w.retries

/-- `options._retryInterval !== undefined ? options._retryInterval : this.retryInterval`. -/
def resolveInterval (w : FetchWrapper) (o : RequestOptions) : Nat :=
  o._retryInterval.getD w.retryInterval

/-- `options._retryOnFail !== undefined ? options._retryOnFail : this.retryOnFail`. -/
def resolveRetryOnFail (w : FetchWrapper) (o : RequestOptions) : Bool :=
  o._retryOnFail.getD w.retryOnFail

/-- Everything one `fetchWithTimeout` call produces or leaves behind: its
result, whether `clearTimeout(id)` ran, the options object after the in-place
`options.signal = controller.signal` write, the concatenated target URL, and
the resolved timeout duration the deadline timer was armed with. -/
structure FetchResult where
  result : Except Err Response
  timerCleared : Bool
  usedOptions : RequestOptions
  target : String
  timeoutUsed : Nat

/-- One timeout-guarded transport attempt (`fetchWithTimeout` of
`src/index.ts`).  `outcome` is what the underlying `fetch` call does.  On
resolution the timer is cleared and the response returned unchanged; on any
rejection — deadline abort or any other transport failure — the `catch`
block throws `Error('Request timed out')` and the timer is not cleared. -/
def fetchWithTimeout (w : FetchWrapper) (resource : String) (options : RequestOptions)
    (outcome : FetchOutcome) : FetchResult :=
  let timeoutVal := resolveTimeout w options
  let options' := setSignal options true
  let finalResource :=
    match options._apiUrl with
    | none => w.apiUrl ++ resource
    | some u => u ++ resource
  match outcome with
  | .resp r => ⟨.ok r, true, options', finalResource, timeoutVal⟩
  | .netErr => ⟨.error .timedOut, false, options', finalResource, timeoutVal⟩

/-- An attempt outcome the retry loop treats as a failure: the guarded fetch
threw, or it returned a response with status ≥ 500 or status 429. -/
def Failing : FetchOutcome → Prop
  | .netErr => True
  | .resp r => 500 ≤ r.status ∨ r.status = 429

instance : DecidablePred Failing := by
  intro oc
  cases oc with
  | netErr => exact isTrue trivial
  | resp r => unfold Failing; infer_instance

/-- The error a failing attempt raises inside `retryFetch` of `src/index.ts`:
`Error('Request timed out')` when the guarded fetch threw, and
`Error('Network response was not ok: ${status}')` when the loop judged the
status retryable. -/
def attemptErr : FetchOutcome → Err
  | .netErr => .timedOut
  | .resp r => .notOkStatus r.status

/-- How one attempt outcome rewrites the mutable `interval` variable of
`retryFetch`: a 429 response carrying a `Retry-After` header overwrites it
with that header's value in milliseconds; every other outcome leaves it
unchanged. -/
def nextInterval (itv : Nat) : FetchOutcome → Nat
  | .resp r =>
    match r.retryAfter with
    | some h => if r.status = 429 then h * 1000 else itv
    | none => itv
  | .netErr => itv

/-- An attempt outcome that never rewrites the `interval` variable. -/
def noOverride : FetchOutcome → Prop
  | .netErr => True
  | .resp r => r.status ≠ 429 ∨ r.retryAfter = none

instance : DecidablePred noOverride := by
  intro oc
  cases oc with
  | netErr => exact isTrue trivial
  | resp r => unfold noOverride; infer_instance

/-- The wait recorded after attempt `i + j` of a retry loop that reaches it
with current interval `itv` at attempt `i`: every attempt on the way applies
its `nextInterval` rewrite, and the wait equals the interval current after
the failing attempt it follows. -/
def waitTrace (transport : Nat → FetchOutcome) : Nat → Nat → Nat → Nat
  | itv, i, 0 => nextInterval itv (transport i)
  | itv, i, j + 1 => waitTrace transport (nextInterval itv (transport i)) (i + 1) j

/-- Observable behaviour of one `retryFetch` call: its result, how many
attempts it made, and the list of backoff waits it slept (the wait recorded
at index `i` is the one between attempt `i` and attempt `i + 1`). -/
structure RetryOut where
  result : Except Err Response
  attempts : Nat
  waits : List Nat
deriving Repr

/-- The body of the `for (let i = 0; i <= retries; i++)` loop of `retryFetch`
in `src/index.ts`, with `fuel` counting the remaining loop iterations
(`fuel = retries + 1 - i`; running out corresponds to falling through the
loop to `throw new Error('Maximum retries exceeded')`).  Each iteration
performs one guarded attempt; a non-ok response with status ≥ 500 or 429
(updating `interval` from a 429 `Retry-After` header first) and any thrown
error are caught: when `i < retries` the loop sleeps the current `interval`
and continues, otherwise the error is re-thrown. -/
def retryFetchAux (w : FetchWrapper) (resource : String) (options : RequestOptions)
    (transport : Nat → FetchOutcome) (retries : Nat) :
    Nat → Nat → Nat → RetryOut
  | _, _, 0 => ⟨.error .maxRetries, 0, []⟩
  | itv, i, fuel + 1 =>
    match (fetchWithTimeout w resource options (transport i)).result with
    | .ok r =>
      if r.ok then ⟨.ok r, 1, []⟩
      else if 500 ≤ r.status ∨ r.status = 429 then
        let itv' := nextInterval itv (.resp r)
        if i < retries then
          let rest := retryFetchAux w resource options transport retries itv' (i + 1) fuel
          ⟨rest.result, rest.attempts + 1, itv' :: rest.waits⟩
        else ⟨.error (.notOkStatus r.status), 1, []⟩
      else ⟨.ok r, 1, []⟩
    | .error e =>
      if i < retries then
        let rest := retryFetchAux w resource options transport retries itv (i + 1) fuel
        ⟨rest.result, rest.attempts + 1, itv :: rest.waits⟩
      else ⟨.error e, 1, []⟩

/-- `retryFetch` of `src/index.ts`: resolve the retry budget and the initial
interval (per-call override else instance default) and run the loop from
attempt 0. -/
def retryFetch (w : FetchWrapper) (resource : String) (options : RequestOptions)
    (transport : Nat → FetchOutcome) : RetryOut :=
  retryFetchAux w resource options transport (resolveRetries w options)
    (resolveInterval w options) 0 (resolveRetries w options + 1)

/-- `request` of `src/index.ts`: resolve the retry flag, run the request
interceptor chain on the `[resource, options]` pair, dispatch through one
guarded attempt or the retry loop, run the response interceptor chain, and
let the `catch` block re-throw any failure unchanged (there is no ok-check
and no call-level rejected scan in this variant). -/
def request (w : FetchWrapper) (transport : Nat → FetchOutcome)
    (resource : String) (options : RequestOptions) : Except Err Response :=
  let retryOnFail := resolveRetryOnFail w options
  match InterceptorManager.runHandlers w.requestInterceptors (resource, options) with
  | .error e => .error e
  | .ok p =>
    let fetched : Except Err Response :=
      if retryOnFail then (retryFetch w p.1 p.2 transport).result
      else (fetchWithTimeout w p.1 p.2 (transport 0)).result
    match fetched with
    | .error e => .error e
    | .ok r => InterceptorManager.runHandlers w.responseInterceptors r

/-- A request-interceptor `fulfilled` handler that does not read the `signal`
field of the options it receives: its output is the same whatever signal
residue a previous attempt left on the options object.  (Handlers are
caller-supplied collaborators; the spec's chain contract treats them as pure
functions of their argument.) -/
def Oblivious (f : String × RequestOptions → Except Err (String × RequestOptions)) : Prop :=
  ∀ (res : String) (o : RequestOptions) (b : Bool),
    f (res, setSignal o b) = f (res, setSignal o false)

end FetchWrapper

/-- One registered interceptor of the `src/unnamed/part_000` (first document)
wrapper — the interface that file names `InterceptorManager<T>`: a
`fulfilled` transform and an optional `rejected` recovery step.  There
`rejected(error)` receives only the error, and its return value is used:
`applyInterceptors` assigns it to the in-flight value, and the `request`
funnel returns it as the call result. -/
structure Interceptor0 (T : Type) where
  fulfilled : Option (T → Except Err T) := none
  rejected : Option (Err → Except Err T) := none

/-- `applyInterceptors` of part_000: fold the list over the value; when an
entry's `fulfilled` throws and that entry has a `rejected` handler, the
handler's return value replaces the in-flight value and the loop `break`s
(so the chain resolves with the substituted value); with no `rejected`
handler the error propagates. -/
def applyInterceptors {T : Type} : List (Interceptor0 T) → T → Except Err T
  | [], value => .ok value
  | en :: rest, value =>
    match en.fulfilled with
    | none => applyInterceptors rest value
    | some f =>
      match f value with
      | .ok value' => applyInterceptors rest value'
      | .error e =>
        match en.rejected with
        | some rej => rej e
        | none => .error e

/-- Instance state of the part_000 (first document) wrapper: configuration
plus its two plain interceptor arrays (`requestInterceptors` over
`RequestOptions`, `responseInterceptors` over `Response`). -/
structure FetchWrapper0 where
  timeout : Nat
  retries : Nat
  baseURL : String
  retryInterval : Nat
  retryOnFail : Bool
  requestInterceptors : List (Interceptor0 RequestOptions) := []
  responseInterceptors : List (Interceptor0 Response) := []

namespace FetchWrapper0

/-- Per-call override resolution, identical to the index.ts variant. -/
def resolveRetries (w : FetchWrapper0) (o : RequestOptions) : Nat :=
  o._retries.getD w.retries

/-- `options._retryInterval !== undefined ? options._retryInterval : this.retryInterval`. -/
def resolveInterval (w : FetchWrapper0) (o : RequestOptions) : Nat :=
  o._retryInterval.getD w.retryInterval

/-- `options._retryOnFail !== undefined ? options._retryOnFail : this.retryOnFail`. -/
def resolveRetryOnFail (w : FetchWrapper0) (o : RequestOptions) : Bool :=
  o._retryOnFail.getD w.retryOnFail

/-- `fetchWithTimeout` of part_000 (same body as the index.ts one, with the
base address field named `baseURL`); only the result is modelled here. -/
def fetchWithTimeout (w : FetchWrapper0) (resource : String) (options : RequestOptions)
    (outcome : FetchOutcome) : Except Err Response :=
  match outcome with
  | .resp r => .ok r
  | .netErr => .error .timedOut

/-- The loop body of part_000's `retryFetch`, fuelled like the index.ts one.
This variant throws `Error('Network response was not ok: ${status}')` for
status ≥ 500 (without touching `interval`) and
`Error('Rate Limit Exceeded: ${status}')` for status 429 (after taking a
`Retry-After` override when the header is present); any other response is
returned as-is. -/
def retryFetchAux (w : FetchWrapper0) (resource : String) (options : RequestOptions)
    (transport : Nat → FetchOutcome) (retries : Nat) :
    Nat → Nat → Nat → FetchWrapper.RetryOut
  | _, _, 0 => ⟨.error .maxRetries, 0, []⟩
  | itv, i, fuel + 1 =>
    match fetchWithTimeout w resource options (transport i) with
    | .ok r =>
      if r.ok then ⟨.ok r, 1, []⟩
      else if 500 ≤ r.status then
        if i < retries then
          let rest := retryFetchAux w resource options transport retries itv (i + 1) fuel
          ⟨rest.result, rest.attempts + 1, itv :: rest.waits⟩
        else ⟨.error (.notOkStatus r.status), 1, []⟩
      else if r.status = 429 then
        let itv' :=
          match r.retryAfter with
          | some h => h * 1000
          | none => itv
        if i < retries then
          let rest := retryFetchAux w resource options transport retries itv' (i + 1) fuel
          ⟨rest.result, rest.attempts + 1, itv' :: rest.waits⟩
        else ⟨.error (.rateLimited r.status), 1, []⟩
      else ⟨.ok r, 1, []⟩
    | .error e =>
      if i < retries then
        let rest := retryFetchAux w resource options transport retries itv (i + 1) fuel
        ⟨rest.result, rest.attempts + 1, itv :: rest.waits⟩
      else ⟨.error e, 1, []⟩

/-- `retryFetch` of part_000. -/
def retryFetch (w : FetchWrapper0) (resource : String) (options : RequestOptions)
    (transport : Nat → FetchOutcome) : FetchWrapper.RetryOut :=
  retryFetchAux w resource options transport (resolveRetries w options)
    (resolveInterval w options) 0 (resolveRetries w options + 1)

/-- The body of either `try` block of part_000's `request` (the two branches
are textually identical apart from the dispatch call): one guarded attempt or
the retry loop, then `if (!response.ok) throw new Error('Network response was
not ok')`, then the response interceptor chain. -/
def coreResult (w : FetchWrapper0) (transport : Nat → FetchOutcome) (resource : String)
    (options : RequestOptions) (retryOnFail : Bool) : Except Err Response :=
  let fetched :=
    if retryOnFail then (retryFetch w resource options transport).result
    else fetchWithTimeout w resource options (transport 0)
  match fetched with
  | .error e => .error e
  | .ok r => if r.ok then applyInterceptors w.responseInterceptors r else .error .notOk

/-- The `catch` block of part_000's `request`: walk the registered response
interceptors for the first one carrying a `rejected` handler; return that
handler's value as the call result (or propagate the new error it throws);
when no interceptor offers one, re-throw the original error. -/
def funnelScan : List (Interceptor0 Response) → Err → Except Err Response
  | [], e => .error e
  | en :: rest, e =>
    match en.rejected with
    | some rej => rej e
    | none => funnelScan rest e

/-- `request` of part_000: resolve the retry flag, run the request interceptor
chain over the options (outside any `try`, so a failure there propagates
directly), then run the selected dispatch branch with its ok-check and
response chain inside a `try` whose `catch` is the funnel scan. -/
def request (w : FetchWrapper0) (transport : Nat → FetchOutcome)
    (resource : String) (options : RequestOptions) : Except Err Response :=
  let retryOnFail := resolveRetryOnFail w options
  match applyInterceptors w.requestInterceptors options with
  | .error e => .error e
  | .ok options' =>
    match coreResult w transport resource options' retryOnFail with
    | .ok r => .ok r
    | .error e => funnelScan w.responseInterceptors e

end FetchWrapper0

/-- A chain entry whose `fulfilled` throws and whose `rejected` itself throws
a different error. -/
def c3entryCE : InterceptorManager.Interceptor Nat Nat :=
  ⟨some fun _ => .error 7, some fun _ => .error 9⟩

/-- A chain entry whose `fulfilled` throws and whose `rejected` returns
normally. -/
def c3entryW : InterceptorManager.Interceptor Nat Nat :=
  ⟨some fun _ => .error 5, some fun _ => .ok ()⟩

/-- A part_000 wrapper with a throwing request interceptor and a response
interceptor whose `rejected` handler offers a recovery value. -/
def c4wrapper : FetchWrapper0 where
  timeout := 5000
  retries := 3
  baseURL := ""
  retryInterval := 1000
  retryOnFail := false
  requestInterceptors := [⟨some fun _ => .error (.user 5), none⟩]
  responseInterceptors := [⟨none, some fun _ => .ok ⟨200, none⟩⟩]

/-- A part_000 wrapper with no request interceptors and two response
interceptors, of which only the second carries a `rejected` handler. -/
def c4witnessWrapper : FetchWrapper0 where
  timeout := 5000
  retries := 3
  baseURL := ""
  retryInterval := 1000
  retryOnFail := false
  responseInterceptors := [⟨none, none⟩, ⟨none, some fun _ => .ok ⟨200, none⟩⟩]

/-- A part_000 wrapper with default configuration and no interceptors. -/
def c2wrapper0 : FetchWrapper0 where
  timeout := 5000
  retries := 3
  baseURL := ""
  retryInterval := 1000
  retryOnFail := false

/-- Transport scenario refuting the no-header half of the Retry-After claim:
attempt 0 returns 429 with `Retry-After: 7`, attempt 1 returns 429 without
the header, and every later attempt throws. -/
def c6transport : Nat → FetchOutcome := fun i =>
  if i = 0 then .resp ⟨429, some 7⟩
  else if i = 1 then .resp ⟨429, none⟩
  else .netErr

/-- Transport scenario refuting the non-stickiness claim: attempt 0 returns
429 with `Retry-After: 7`, attempt 1 returns a plain 503, and every later
attempt throws. -/
def c7transport : Nat → FetchOutcome := fun i =>
  if i = 0 then .resp ⟨429, some 7⟩
  else if i = 1 then .resp ⟨503, none⟩
  else .netErr

namespace InterceptorManager

/-- Splitting a chain: running `xs ++ ys` runs `xs`, and on success feeds the
result to `ys`; an error in `xs` short-circuits. -/
theorem runHandlers_append {T E : Type} :
    ∀ (xs ys : List (Interceptor T E)) (v : T),
      runHandlers (xs ++ ys) v =
        match runHandlers xs v with
        | .ok w => runHandlers ys w
        | .error e => .error e := by
  intro xs
  induction xs with
  | nil => intro ys v; rfl
  | cons en rest ih =>
    intro ys v
    obtain ⟨f?, r?⟩ := en
    cases f? with
    | none => simpa [runHandlers] using ih ys v
    | some f =>
      cases hv : f v with
      | ok v' => simpa [runHandlers, hv] using ih ys v'
      | error e =>
        cases r? with
        | none => simp [runHandlers, hv]
        | some rej => cases hr : rej e <;> simp [runHandlers, hv, hr]

/-- C3 (amended): when an entry's `fulfilled` handler is the first in the
chain to raise, `runHandlers` invokes that entry's `rejected` handler (if
present) with the error — only the error; this manager does not pass the
in-flight value — and re-raises the original error regardless of what
`rejected` returned; but when `rejected` itself raises, the new error
propagates in place of the original (JavaScript `catch`-block semantics), as
the counterexample shows.  In no case does `runHandlers` resolve with a value
substituted by a `rejected` handler. -/
theorem runHandlers_rejected_observes_then_reraises {T E : Type}
    (pre rest : List (Interceptor T E)) (en : Interceptor T E)
    (v v' : T) (f : T → Except E T) (e : E)
    (h1 : runHandlers pre v = .ok v')
    (h2 : en.fulfilled = some f) (h3 : f v' = .error e) :
    runHandlers (pre ++ en :: rest) v =
      match en.rejected with
      | none => .error e
      | some rej =>
        match rej e with
        | .ok _ => .error e
        | .error e' => .error e' := by
  rw [runHandlers_append pre (en :: rest) v, h1]
  simp only [runHandlers, h2, h3]

/-- Witness for C3 (amended): a single entry whose `fulfilled` raises `5` and
whose `rejected` returns normally leaves the chain failing with the original
error `5`. -/
theorem runHandlers_rejected_observes_then_reraises_witness :
    runHandlers ([] ++ c3entryW :: []) 0 = .error 5 := by
  have h := runHandlers_rejected_observes_then_reraises [] [] c3entryW 0 0
    (fun _ => .error 5) 5 rfl rfl rfl
  simpa [c3entryW] using h

/-- Counterexample to C3 as stated: when the entry's `rejected` handler itself
raises (`9`), `runHandlers` propagates the new error `9` instead of
re-raising the original error `7`, so the original error is not re-raised
"regardless of whether rejected itself raised". -/
theorem runHandlers_raising_rejected_replaces_error :
    runHandlers [c3entryCE] 0 = .error 9 ∧
      (Except.error 9 : Except Nat Nat) ≠ .error 7 := by
  exact ⟨rfl, by simp⟩

end InterceptorManager

theorem registerTags_eq (tags : List Nat) :
    registerTags tags =
      tags.map (fun t => ⟨some (appendTag t), none⟩) := by
  have key : ∀ (ts : List Nat) (acc : List (InterceptorManager.Interceptor (List Nat) Nat)),
      ts.foldl (fun hs t => InterceptorManager.use hs (some (appendTag t)) none) acc =
        acc ++ ts.map (fun t => ⟨some (appendTag t), none⟩) := by
    intro ts
    induction ts with
    | nil => intro acc; simp
    | cons t ts ih =>
      intro acc
      rw [List.foldl_cons, ih]
      simp [InterceptorManager.use]
  simpa using key tags []

/-- C8: handlers run in exactly the order `use` appended them, each entry's
`fulfilled` result feeding the next entry: a chain of tag-appending
interceptors registered in the order `tags` yields the tag list `l ++ tags`
(for `tags = [A, B]` that is `[A, B]`, never `[B, A]`); no entry is
reordered, deduplicated, or dropped. -/
theorem runHandlers_registration_order (tags l : List Nat) :
    InterceptorManager.runHandlers (registerTags tags) l = .ok (l ++ tags) := by
  rw [registerTags_eq]
  induction tags generalizing l with
  | nil => simp [InterceptorManager.runHandlers]
  | cons t ts ih =>
    simp only [List.map_cons, InterceptorManager.runHandlers, appendTag]
    rw [ih (l ++ [t])]
    simp

namespace FetchWrapper

/-- The `result` field of `fetchWithTimeout` depends only on the transport
outcome. -/
theorem fetchWithTimeout_result (w : FetchWrapper) (resource : String)
    (options : RequestOptions) (outcome : FetchOutcome) :
    (fetchWithTimeout w resource options outcome).result =
      match outcome with
      | .resp r => .ok r
      | .netErr => .error .timedOut := by
  cases outcome <;> rfl

/-- C5: the timeout guard surfaces every failure of the underlying transport
call — deadline abort or any other transport error — identically as
`Error('Request timed out')`, so no other error kind escapes it; on
completion the deadline timer is cleared (`clearTimeout`) and the transport's
response is returned unchanged (and the timer is left running on failure,
where the `catch` skips `clearTimeout`). -/
theorem fetchWithTimeout_conflates_failures (w : FetchWrapper) (resource : String)
    (options : RequestOptions) (outcome : FetchOutcome) :
    (fetchWithTimeout w resource options outcome).result =
        (match outcome with
          | .resp r => .ok r
          | .netErr => .error Err.timedOut) ∧
      (fetchWithTimeout w resource options outcome).timerCleared =
        (match outcome with
          | .resp _ => true
          | .netErr => false) := by
  cases outcome <;> exact ⟨rfl, rfl⟩

/-- C10: constructor configuration values of `0` are swallowed by the `||`
defaults (`{retries: 0}` yields 3, `{timeout: 0}` yields 5000,
`{retryInterval: 0}` yields 1000), while the per-call overrides `_retries: 0`,
`_timeout: 0` and `_retryInterval: 0` are honored as `0` because per-call
resolution tests `!== undefined`. -/
theorem zero_config_defaults_vs_zero_overrides :
    (mkWrapper { emptyConfig with retries? := some 0 }).retries = 3 ∧
      (mkWrapper { emptyConfig with timeout? := some 0 }).timeout = 5000 ∧
      (mkWrapper { emptyConfig with retryInterval? := some 0 }).retryInterval = 1000 ∧
      ∀ w : FetchWrapper,
        resolveRetries w { defaultOptions with _retries := some 0 } = 0 ∧
          resolveTimeout w { defaultOptions with _timeout := some 0 } = 0 ∧
          resolveInterval w { defaultOptions with _retryInterval := some 0 } = 0 := by
  refine ⟨rfl, rfl, rfl, fun w => ⟨rfl, rfl, rfl⟩⟩

theorem noOverride_nextInterval {oc : FetchOutcome} (h : noOverride oc) (itv : Nat) :
    nextInterval itv oc = itv := by
  cases oc with
  | netErr => rfl
  | resp r =>
    cases hra : r.retryAfter with
    | none => simp [nextInterval, hra]
    | some hdr =>
      rcases h with h429 | hnone
      · simp [nextInterval, hra, h429]
      · rw [hra] at hnone; cases hnone

/-- A failing response outcome is never `ok` (status ≥ 500 or = 429 lies
outside [200, 300)). -/
theorem Failing.not_ok {r : Response} (h : Failing (.resp r)) : r.ok = false := by
  rcases h with h5 | h429
  · simp [Response.ok]; omega
  · simp [Response.ok, h429]

/-- Unfolding one loop iteration whose guarded attempt threw. -/
theorem retryFetchAux_netErr (w : FetchWrapper) (resource : String)
    (options : RequestOptions) (transport : Nat → FetchOutcome)
    (retries itv i fuel : Nat) (h : transport i = .netErr) :
    retryFetchAux w resource options transport retries itv i (fuel + 1) =
      if i < retries then
        let rest := retryFetchAux w resource options transport retries itv (i + 1) fuel
        ⟨rest.result, rest.attempts + 1, itv :: rest.waits⟩
      else ⟨.error .timedOut, 1, []⟩ := by
  simp only [retryFetchAux, fetchWithTimeout, h]

/-- Unfolding one loop iteration whose guarded attempt returned a retryable
failing response (status ≥ 500 or 429). -/
theorem retryFetchAux_failResp (w : FetchWrapper) (resource : String)
    (options : RequestOptions) (transport : Nat → FetchOutcome)
    (retries itv i fuel : Nat) (r : Response) (h : transport i = .resp r)
    (hf : 500 ≤ r.status ∨ r.status = 429) :
    retryFetchAux w resource options transport retries itv i (fuel + 1) =
      if i < retries then
        let rest := retryFetchAux w resource options transport retries
          (nextInterval itv (.resp r)) (i + 1) fuel
        ⟨rest.result, rest.attempts + 1, nextInterval itv (.resp r) :: rest.waits⟩
      else ⟨.error (.notOkStatus r.status), 1, []⟩ := by
  have hok : r.ok = false := Failing.not_ok hf
  simp only [retryFetchAux, fetchWithTimeout, h, hok, Bool.false_eq_true, if_false, hf, if_true]

/-- When every attempt in scope fails, the retry loop consumes all its fuel
and ends by re-raising the failure of attempt `retries`. -/
theorem retryFetchAux_allFailing (w : FetchWrapper) (resource : String)
    (options : RequestOptions) (transport : Nat → FetchOutcome) (retries : Nat) :
    ∀ (fuel i itv : Nat), i + (fuel + 1) = retries + 1 →
      (∀ k, i ≤ k → k ≤ retries → Failing (transport k)) →
      (retryFetchAux w resource options transport retries itv i (fuel + 1)).result =
          .error (attemptErr (transport retries)) ∧
        (retryFetchAux w resource options transport retries itv i (fuel + 1)).attempts =
          fuel + 1 := by
  intro fuel
  induction fuel with
  | zero =>
    intro i itv hsum hfail
    have hi : i = retries := by omega
    subst hi
    have hf := hfail i le_rfl le_rfl
    cases ht : transport i with
    | netErr =>
      rw [retryFetchAux_netErr w resource options transport i itv i 0 ht,
        if_neg (lt_irrefl i)]
      exact ⟨rfl, rfl⟩
    | resp r =>
      rw [ht] at hf
      rw [retryFetchAux_failResp w resource options transport i itv i 0 r ht hf,
        if_neg (lt_irrefl i)]
      exact ⟨rfl, rfl⟩
  | succ fuel ih =>
    intro i itv hsum hfail
    have hi : i < retries := by omega
    have hstep := fun itv' => ih (i + 1) itv' (by omega)
      (fun k hk1 hk2 => hfail k (by omega) hk2)
    have hf := hfail i (le_refl i) (by omega)
    cases ht : transport i with
    | netErr =>
      rw [retryFetchAux_netErr w resource options transport retries itv i (fuel + 1) ht,
        if_pos hi]
      exact ⟨(hstep itv).1, congrArg (· + 1) (hstep itv).2⟩
    | resp r =>
      rw [ht] at hf
      rw [retryFetchAux_failResp w resource options transport retries itv i (fuel + 1) r ht hf,
        if_pos hi]
      exact ⟨(hstep _).1, congrArg (· + 1) (hstep _).2⟩

/-- C1: with retry enabled, when every timeout-guarded attempt fails (throws,
or returns status ≥ 500 or 429), `retryFetch` performs exactly `n + 1`
attempts for resolved retry count `n` and re-raises the failure of the last
attempt (index `n`); it never resolves with a failed-attempt response once
the budget is exhausted. -/
theorem retryFetch_exhausts_budget (w : FetchWrapper) (resource : String)
    (options : RequestOptions) (transport : Nat → FetchOutcome)
    (hfail : ∀ k, k ≤ resolveRetries w options → Failing (transport k)) :
    (retryFetch w resource options transport).result =
        .error (attemptErr (transport (resolveRetries w options))) ∧
      (retryFetch w resource options transport).attempts =
        resolveRetries w options + 1 := by
  unfold retryFetch
  exact retryFetchAux_allFailing w resource options transport (resolveRetries w options)
    (resolveRetries w options) 0 (resolveInterval w options) (by omega)
    (fun k _ hk2 => hfail k hk2)

/-- As long as all attempts up to `i + j` fail and `i + j` stays below the
retry budget, the wait recorded at index `j` of the loop entered at attempt
`i` with current interval `itv` is `waitTrace transport itv i j`. -/
theorem retryFetchAux_waits_get (w : FetchWrapper) (resource : String)
    (options : RequestOptions) (transport : Nat → FetchOutcome) (retries : Nat) :
    ∀ (j i itv fuel : Nat), i + fuel = retries + 1 →
      (∀ k, i ≤ k → k ≤ i + j → Failing (transport k)) → i + j < retries →
      (retryFetchAux w resource options transport retries itv i fuel).waits.get? j =
        some (waitTrace transport itv i j) := by
  intro j
  induction j with
  | zero =>
    intro i itv fuel hsum hfail hlt
    obtain ⟨f, rfl⟩ : ∃ f, fuel = f + 1 := ⟨fuel - 1, by omega⟩
    have hi : i < retries := by omega
    have hf := hfail i le_rfl (by omega)
    cases ht : transport i with
    | netErr =>
      rw [retryFetchAux_netErr w resource options transport retries itv i f ht, if_pos hi]
      simp [waitTrace, ht, nextInterval]
    | resp r =>
      rw [ht] at hf
      rw [retryFetchAux_failResp w resource options transport retries itv i f r ht hf,
        if_pos hi]
      simp [waitTrace, ht]
  | succ j ih =>
    intro i itv fuel hsum hfail hlt
    obtain ⟨f, rfl⟩ : ∃ f, fuel = f + 1 := ⟨fuel - 1, by omega⟩
    have hi : i < retries := by omega
    have hf := hfail i le_rfl (by omega)
    have hnext : ∀ itv', (retryFetchAux w resource options transport retries itv' (i + 1)
        f).waits.get? j = some (waitTrace transport itv' (i + 1) j) := by
      intro itv'
      exact ih (i + 1) itv' f (by omega) (fun k hk1 hk2 => hfail k (by omega) (by omega))
        (by omega)
    cases ht : transport i with
    | netErr =>
      rw [retryFetchAux_netErr w resource options transport retries itv i f ht, if_pos hi]
      have : waitTrace transport itv i (j + 1) = waitTrace transport itv (i + 1) j := by
        simp [waitTrace, ht, nextInterval]
      rw [this]
      exact hnext itv
    | resp r =>
      rw [ht] at hf
      rw [retryFetchAux_failResp w resource options transport retries itv i f r ht hf,
        if_pos hi]
      have : waitTrace transport itv i (j + 1) =
          waitTrace transport (nextInterval itv (.resp r)) (i + 1) j := by
        simp [waitTrace, ht]
      rw [this]
      exact hnext _

/-- A 429 attempt carrying `Retry-After: h` makes the wait that follows it
`h * 1000`, whatever interval was current before it. -/
theorem waitTrace_override (transport : Nat → FetchOutcome) (r : Response) (h : Nat)
    (h429 : r.status = 429) (hra : r.retryAfter = some h) :
    ∀ (j i itv : Nat), transport (i + j) = .resp r →
      waitTrace transport itv i j = h * 1000 := by
  intro j
  induction j with
  | zero =>
    intro i itv ht
    rw [Nat.add_zero] at ht
    simp [waitTrace, ht, nextInterval, hra, h429]
  | succ j ih =>
    intro i itv ht
    exact ih (i + 1) (nextInterval itv (transport i)) (by rw [← ht]; ring_nf)

/-- When no attempt in scope rewrites the interval, the traced wait is the
interval the loop entered with. -/
theorem waitTrace_noOverride (transport : Nat → FetchOutcome) :
    ∀ (j i itv : Nat), (∀ k, i ≤ k → k ≤ i + j → noOverride (transport k)) →
      waitTrace transport itv i j = itv := by
  intro j
  induction j with
  | zero =>
    intro i itv hno
    exact noOverride_nextInterval (hno i le_rfl (by omega)) itv
  | succ j ih =>
    intro i itv hno
    have h0 := noOverride_nextInterval (hno i le_rfl (by omega)) itv
    calc waitTrace transport itv i (j + 1)
        = waitTrace transport (nextInterval itv (transport i)) (i + 1) j := rfl
      _ = nextInterval itv (transport i) := ih (i + 1) _
          (fun k hk1 hk2 => hno k (by omega) (by omega))
      _ = itv := h0

/-- C6 (amended): within one `retryFetch` call whose attempts up to `i` all
fail and whose attempt `i` is not the last, (a) when attempt `i` returns 429
with `Retry-After: h`, the wait before the next attempt is `h * 1000`
regardless of the configured retry interval; (b) the wait equals the
resolved retry interval (per-call override else instance default) only when
no attempt up to `i` carried a 429 Retry-After override — the original
claim's unconditional no-header case is false because an earlier override
persists (see the counterexample). -/
theorem retryFetch_429_wait (w : FetchWrapper) (resource : String)
    (options : RequestOptions) (transport : Nat → FetchOutcome) (i : Nat)
    (hreach : ∀ k, k ≤ i → Failing (transport k))
    (hi : i < resolveRetries w options) :
    (∀ r h, transport i = .resp r → r.status = 429 → r.retryAfter = some h →
        (retryFetch w resource options transport).waits.get? i = some (h * 1000)) ∧
      ((∀ k, k ≤ i → noOverride (transport k)) →
        (retryFetch w resource options transport).waits.get? i =
          some (resolveInterval w options)) := by
  have hget : (retryFetch w resource options transport).waits.get? i =
      some (waitTrace transport (resolveInterval w options) 0 i) := by
    unfold retryFetch
    exact retryFetchAux_waits_get w resource options transport (resolveRetries w options)
      i 0 (resolveInterval w options) (resolveRetries w options + 1) (by omega)
      (fun k hk1 hk2 => hreach k (by omega)) (by omega)
  constructor
  · intro r h ht h429 hra
    rw [hget, waitTrace_override transport r h h429 hra i 0 (resolveInterval w options)
      (by simpa using ht)]
  · intro hno
    rw [hget, waitTrace_noOverride transport i 0 (resolveInterval w options)
      (fun k hk1 hk2 => hno k (by omega))]

/-- Witness for C6: with the default interval 1000, a first-attempt 429
carrying `Retry-After: 2` makes the first wait 2000 ms; and with a transport
of header-less 429s only, the wait after attempt 1 is the configured
1000 ms. -/
theorem retryFetch_429_wait_witness :
    (retryFetch (mkWrapper emptyConfig) "x" defaultOptions
        (fun k => if k = 0 then .resp ⟨429, some 2⟩ else .netErr)).waits.get? 0 =
        some 2000 ∧
      (retryFetch (mkWrapper emptyConfig) "x" defaultOptions
        (fun _ => .resp ⟨429, none⟩)).waits.get? 1 = some 1000 := by
  constructor
  · have h := (retryFetch_429_wait (mkWrapper emptyConfig) "x" defaultOptions
      (fun k => if k = 0 then .resp ⟨429, some 2⟩ else .netErr) 0
      (by decide) (by decide)).1 ⟨429, some 2⟩ 2 rfl rfl rfl
    simpa using h
  · have h := (retryFetch_429_wait (mkWrapper emptyConfig) "x" defaultOptions
      (fun _ => .resp ⟨429, none⟩) 1 (by decide) (by decide)).2 (by decide)
    simpa using h

/-- Counterexample to C6 as stated: after attempt 0 overrides the interval to
7000 ms via `Retry-After: 7`, the header-less 429 at attempt 1 is followed by
a 7000 ms wait, not the resolved retry interval of 1000 ms. -/
theorem retryFetch_429_no_header_keeps_override :
    (retryFetch (mkWrapper emptyConfig) "x" defaultOptions c6transport).waits =
        [7000, 7000, 7000] ∧
      c6transport 1 = .resp ⟨429, none⟩ ∧
      resolveInterval (mkWrapper emptyConfig) defaultOptions = 1000 ∧
      (7000 : Nat) ≠ 1000 := by
  refine ⟨by decide, by decide, by decide, by decide⟩

/-- The retry loop entered at attempt `i` with interval `itv`, seeing only
failing attempts that never rewrite the interval, sleeps `itv` before every
remaining attempt. -/
theorem retryFetchAux_waits_sticky (w : FetchWrapper) (resource : String)
    (options : RequestOptions) (transport : Nat → FetchOutcome) (retries : Nat) :
    ∀ (fuel i itv : Nat), i + (fuel + 1) = retries + 1 →
      (∀ k, i ≤ k → k ≤ retries → Failing (transport k) ∧ noOverride (transport k)) →
      (retryFetchAux w resource options transport retries itv i (fuel + 1)).waits =
        List.replicate (retries - i) itv := by
  intro fuel
  induction fuel with
  | zero =>
    intro i itv hsum hboth
    have hi : i = retries := by omega
    subst hi
    obtain ⟨hf, -⟩ := hboth i le_rfl le_rfl
    cases ht : transport i with
    | netErr =>
      rw [retryFetchAux_netErr w resource options transport i itv i 0 ht,
        if_neg (lt_irrefl i)]
      simp
    | resp r =>
      rw [ht] at hf
      rw [retryFetchAux_failResp w resource options transport i itv i 0 r ht hf,
        if_neg (lt_irrefl i)]
      simp
  | succ fuel ih =>
    intro i itv hsum hboth
    have hi : i < retries := by omega
    obtain ⟨hf, hno⟩ := hboth i le_rfl (by omega)
    have hrep : List.replicate (retries - i) itv =
        itv :: List.replicate (retries - (i + 1)) itv := by
      have : retries - i = (retries - (i + 1)) + 1 := by omega
      rw [this, List.replicate_succ]
    cases ht : transport i with
    | netErr =>
      rw [retryFetchAux_netErr w resource options transport retries itv i (fuel + 1) ht,
        if_pos hi, hrep]
      have := ih (i + 1) itv (by omega) (fun k hk1 hk2 => hboth k (by omega) hk2)
      simpa using this
    | resp r =>
      rw [ht] at hf
      have hitv : nextInterval itv (.resp r) = itv := by
        rw [← ht]; exact noOverride_nextInterval (ht ▸ hno) itv
      rw [retryFetchAux_failResp w resource options transport retries itv i (fuel + 1) r ht hf,
        if_pos hi, hitv, hrep]
      have := ih (i + 1) itv (by omega) (fun k hk1 hk2 => hboth k (by omega) hk2)
      simpa using this

/-- C7 (amended): a Retry-After override from a first-attempt 429 is sticky,
not one-shot: once attempt 0 sets the interval to `h * 1000`, every later
wait of the same `retryFetch` call is `h * 1000` as long as no later attempt
carries a new override — the waits never revert to the resolved retry
interval (the original claim's reversion is refuted by the
counterexample). -/
theorem retryFetch_override_sticky (w : FetchWrapper) (resource : String)
    (options : RequestOptions) (transport : Nat → FetchOutcome) (r : Response) (h : Nat)
    (h0 : transport 0 = .resp r) (h429 : r.status = 429) (hra : r.retryAfter = some h)
    (hrest : ∀ k, 1 ≤ k → k ≤ resolveRetries w options →
      Failing (transport k) ∧ noOverride (transport k)) :
    (retryFetch w resource options transport).waits =
      List.replicate (resolveRetries w options) (h * 1000) := by
  have hf0 : Failing (transport 0) := by rw [h0]; right; exact h429
  have hitv : nextInterval (resolveInterval w options) (.resp r) = h * 1000 := by
    simp [nextInterval, hra, h429]
  unfold retryFetch
  rcases Nat.eq_zero_or_pos (resolveRetries w options) with hz | hpos
  · rw [hz] at *
    rw [h0] at hf0
    rw [retryFetchAux_failResp w resource options transport 0
      (resolveInterval w options) 0 0 r h0 hf0, if_neg (lt_irrefl 0)]
    simp
  · obtain ⟨m, hm⟩ : ∃ m, resolveRetries w options = m + 1 :=
      ⟨resolveRetries w options - 1, by omega⟩
    rw [h0] at hf0
    rw [hm]
    rw [retryFetchAux_failResp w resource options transport (m + 1)
      (resolveInterval w options) 0 (m + 1) r h0 hf0, if_pos (by omega), hitv]
    have := retryFetchAux_waits_sticky w resource options transport (m + 1) m 1 (h * 1000)
      (by omega) (fun k hk1 hk2 => hrest k hk1 (by omega))
    simp only [this, hm]
    have : m + 1 - 1 = m := by omega
    rw [this, ← List.replicate_succ]

/-- Witness for C7: default config (3 retries, interval 1000); attempt 0 is a
429 with `Retry-After: 2` and every later attempt throws: all three waits are
2000 ms. -/
theorem retryFetch_override_sticky_witness :
    (retryFetch (mkWrapper emptyConfig) "x" defaultOptions
        (fun k => if k = 0 then .resp ⟨429, some 2⟩ else .netErr)).waits =
      List.replicate 3 2000 := by
  have h := retryFetch_override_sticky (mkWrapper emptyConfig) "x" defaultOptions
    (fun k => if k = 0 then .resp ⟨429, some 2⟩ else .netErr) ⟨429, some 2⟩ 2
    rfl rfl rfl (by decide)
  simpa using h

/-- Counterexample to C7 as stated: after attempt 0 overrides the interval to
7000 ms, the waits after the plain-503 attempt 1 and the throwing attempt 2
are still 7000 ms — they do not revert to the resolved retry interval of
1000 ms. -/
theorem retryFetch_override_does_not_revert :
    (retryFetch (mkWrapper emptyConfig) "x" defaultOptions c7transport).waits =
        [7000, 7000, 7000] ∧
      c7transport 1 = .resp ⟨503, none⟩ ∧
      resolveInterval (mkWrapper emptyConfig) defaultOptions = 1000 ∧
      (7000 : Nat) ≠ 1000 := by
  refine ⟨by decide, by decide, by decide, by decide⟩

/-- Witness for C1: with the default configuration (3 retries) and a transport
that always throws, `retryFetch` makes 4 attempts and raises the timeout
error. -/
theorem retryFetch_exhausts_budget_witness :
    (retryFetch (mkWrapper emptyConfig) "x" defaultOptions (fun _ => .netErr)).result =
        .error Err.timedOut ∧
      (retryFetch (mkWrapper emptyConfig) "x" defaultOptions (fun _ => .netErr)).attempts = 4 := by
  have h := retryFetch_exhausts_budget (mkWrapper emptyConfig) "x" defaultOptions
    (fun _ => .netErr) (fun k _ => trivial)
  exact ⟨h.1, h.2⟩

/-- Counterexample to C2 as stated: in the `src/index.ts` variant, `request`
has no ok-check, so with retry enabled a constant-404 transport makes the
call resolve successfully with the 404 response (after a single `retryFetch`
attempt) instead of rejecting with `Error('Network response was not ok')`. -/
theorem request_resolves_with_404_in_index_variant :
    request (mkWrapper emptyConfig) (fun _ => .resp ⟨404, none⟩) "x"
        { defaultOptions with _retryOnFail := some true } = .ok ⟨404, none⟩ ∧
      (retryFetch (mkWrapper emptyConfig) "x" { defaultOptions with _retryOnFail := some true }
        (fun _ => .resp ⟨404, none⟩)).attempts = 1 ∧
      (Except.ok ⟨404, none⟩ : Except Err Response) ≠ .error .notOk := by
  refine ⟨rfl, rfl, by simp⟩

/-- A chain of signal-oblivious handlers run on two inputs that agree except
for the `signal` field either fails identically or succeeds with values that
again agree except for the `signal` field. -/
theorem runHandlers_signal_indep
    (hs : List (InterceptorManager.Interceptor (String × RequestOptions) Err))
    (hobl : ∀ en ∈ hs, ∀ f, en.fulfilled = some f → Oblivious f) :
    ∀ (p q : String × RequestOptions), p.1 = q.1 →
      setSignal p.2 false = setSignal q.2 false →
      (∃ e, InterceptorManager.runHandlers hs p = .error e ∧
          InterceptorManager.runHandlers hs q = .error e) ∨
        (∃ p' q', InterceptorManager.runHandlers hs p = .ok p' ∧
          InterceptorManager.runHandlers hs q = .ok q' ∧
          p'.1 = q'.1 ∧ setSignal p'.2 false = setSignal q'.2 false) := by
  induction hs with
  | nil =>
    intro p q h1 h2
    exact Or.inr ⟨p, q, rfl, rfl, h1, h2⟩
  | cons en rest ih =>
    intro p q h1 h2
    have ihrest := fun p q h1 h2 =>
      ih (fun x hx f hf => hobl x (List.mem_cons_of_mem en hx) f hf) p q h1 h2
    cases hf : en.fulfilled with
    | none =>
      simp only [InterceptorManager.runHandlers, hf]
      exact ihrest p q h1 h2
    | some f =>
      have hob := hobl en (List.mem_cons_self en rest) f hf
      have hfp : f p = f (p.1, setSignal p.2 false) := hob p.1 p.2 p.2.signal
      have hfq : f q = f (q.1, setSignal q.2 false) := hob q.1 q.2 q.2.signal
      have hfpq : f p = f q := by
        rw [hfp, hfq, h1, h2]
      simp only [InterceptorManager.runHandlers, hf, hfpq]
      cases hv : f q with
      | ok v' => exact ihrest v' v' rfl rfl
      | error e =>
        dsimp only
        cases hrj : en.rejected with
        | none => exact Or.inl ⟨e, rfl, rfl⟩
        | some rej =>
          dsimp only
          cases hr : rej e with
          | ok u => exact Or.inl ⟨e, rfl, rfl⟩
          | error e' => exact Or.inl ⟨e', rfl, rfl⟩

/-- One unfolding of a retry-loop iteration, showing the loop body reads only
the transport outcome — never the resource string or the options object. -/
theorem retryFetchAux_succ (w : FetchWrapper) (resource : String)
    (options : RequestOptions) (transport : Nat → FetchOutcome)
    (retries itv i f : Nat) :
    retryFetchAux w resource options transport retries itv i (f + 1) =
      match transport i with
      | .netErr =>
        if i < retries then
          let rest := retryFetchAux w resource options transport retries itv (i + 1) f
          ⟨rest.result, rest.attempts + 1, itv :: rest.waits⟩
        else ⟨.error .timedOut, 1, []⟩
      | .resp r =>
        if r.ok then ⟨.ok r, 1, []⟩
        else if 500 ≤ r.status ∨ r.status = 429 then
          let itv' := nextInterval itv (.resp r)
          if i < retries then
            let rest := retryFetchAux w resource options transport retries itv' (i + 1) f
            ⟨rest.result, rest.attempts + 1, itv' :: rest.waits⟩
          else ⟨.error (.notOkStatus r.status), 1, []⟩
        else ⟨.ok r, 1, []⟩ := by
  cases ht : transport i <;> simp only [retryFetchAux, fetchWithTimeout, ht]

/-- The retry loop's behaviour is independent of the resource string and the
options object it forwards to `fetchWithTimeout` (whose result depends only
on the transport outcome). -/
theorem retryFetchAux_ignores_resource_options (w : FetchWrapper)
    (transport : Nat → FetchOutcome) (retries : Nat) :
    ∀ (fuel : Nat) (resource resource' : String) (options options' : RequestOptions)
      (itv i : Nat),
      retryFetchAux w resource options transport retries itv i fuel =
        retryFetchAux w resource' options' transport retries itv i fuel := by
  intro fuel
  induction fuel with
  | zero => intro _ _ _ _ _ _; rfl
  | succ f ih =>
    intro resource resource' options options' itv i
    rw [retryFetchAux_succ w resource options transport retries itv i f,
      retryFetchAux_succ w resource' options' transport retries itv i f]
    cases transport i with
    | netErr => simp only [ih resource resource' options options']
    | resp r => simp only [ih resource resource' options options']

/-- `retryFetch` gives equal outcomes on inputs that agree up to the `signal`
field of the options (the resolved budget and interval read only the
underscore-override fields). -/
theorem retryFetch_eqUpToSignal (w : FetchWrapper) (transport : Nat → FetchOutcome)
    (resource resource' : String) (options options' : RequestOptions)
    (hsig : setSignal options false = setSignal options' false) :
    retryFetch w resource options transport = retryFetch w resource' options' transport := by
  have hret : resolveRetries w options = resolveRetries w options' := by
    have h := congrArg RequestOptions._retries hsig
    have h' : options._retries = options'._retries := h
    unfold resolveRetries
    rw [h']
  have hitv : resolveInterval w options = resolveInterval w options' := by
    have h := congrArg RequestOptions._retryInterval hsig
    have h' : options._retryInterval = options'._retryInterval := h
    unfold resolveInterval
    rw [h']
  unfold retryFetch
  rw [hret, hitv]
  exact retryFetchAux_ignores_resource_options w transport (resolveRetries w options')
    (resolveRetries w options' + 1) resource resource' options options'
    (resolveInterval w options') 0

/-- C9: `request` reads only the instance configuration, the registered
interceptor chains and the non-signal fields of its arguments; the only
cross-call state it leaves behind is the in-place `signal` write on the
options object, which is overwritten afresh on every attempt and never read.
Hence, provided the request interceptors are signal-oblivious, a second
`request` call on the same wrapper with identical arguments — even on an
options object carrying the signal residue of an earlier call — resolves to
the identical value a fresh call does. -/
theorem request_signal_invariant (w : FetchWrapper) (transport : Nat → FetchOutcome)
    (resource : String) (options : RequestOptions) (b : Bool)
    (hobl : ∀ en ∈ w.requestInterceptors, ∀ f, en.fulfilled = some f → Oblivious f) :
    request w transport resource (setSignal options b) =
      request w transport resource options := by
  unfold request
  have hflag : resolveRetryOnFail w (setSignal options b) = resolveRetryOnFail w options := rfl
  rw [hflag]
  have hrel := runHandlers_signal_indep w.requestInterceptors hobl
    (resource, setSignal options b) (resource, options) rfl rfl
  rcases hrel with ⟨e, hp, hq⟩ | ⟨p', q', hp, hq, h1, h2⟩
  · rw [hp, hq]
  · rw [hp, hq]
    dsimp only
    rw [retryFetch_eqUpToSignal w transport p'.1 q'.1 p'.2 q'.2 h2, h1,
      fetchWithTimeout_result, fetchWithTimeout_result]

/-- Witness for C9: on the default wrapper (no interceptors registered) a call
whose options carry a leftover signal resolves exactly as the fresh call
does. -/
theorem request_signal_invariant_witness :
    request (mkWrapper emptyConfig) (fun _ => .resp ⟨200, none⟩) "x"
        (setSignal defaultOptions true) =
      request (mkWrapper emptyConfig) (fun _ => .resp ⟨200, none⟩) "x" defaultOptions := by
  exact request_signal_invariant (mkWrapper emptyConfig) (fun _ => .resp ⟨200, none⟩) "x"
    defaultOptions true (by intro en h; exact absurd h (List.not_mem_nil en))

end FetchWrapper

namespace FetchWrapper0

/-- When no registered response interceptor carries a `rejected` handler, the
funnel scan re-throws the original error. -/
theorem funnelScan_noRejected :
    ∀ (ints : List (Interceptor0 Response)) (e : Err),
      (∀ en ∈ ints, en.rejected = none) → funnelScan ints e = .error e := by
  intro ints
  induction ints with
  | nil => intro e _; rfl
  | cons en rest ih =>
    intro e hall
    have hen := hall en (List.mem_cons_self en rest)
    simp only [funnelScan, hen]
    exact ih e (fun p hp => hall p (List.mem_cons_of_mem en hp))

/-- The funnel scan invokes exactly the first `rejected` handler it finds,
skipping entries without one. -/
theorem funnelScan_firstRejected :
    ∀ (pre : List (Interceptor0 Response)) (en : Interceptor0 Response)
      (rest : List (Interceptor0 Response)) (rej : Err → Except Err Response) (e : Err),
      (∀ p ∈ pre, p.rejected = none) → en.rejected = some rej →
      funnelScan (pre ++ en :: rest) e = rej e := by
  intro pre
  induction pre with
  | nil =>
    intro en rest rej e _ hen
    simp only [List.nil_append, funnelScan, hen]
  | cons p ps ih =>
    intro en rest rej e hpre hen
    have hp := hpre p (List.mem_cons_self p ps)
    simp only [List.cons_append, funnelScan, hp]
    exact ih en rest rej e (fun q hq => hpre q (List.mem_cons_of_mem p hq)) hen

/-- One unfolding of part_000's retry loop on an attempt that returned a
non-retryable response (neither ok-irrelevant here: status < 500 and
status ≠ 429): the response is returned as-is after that single attempt. -/
theorem retryFetch_nonRetryable (w : FetchWrapper0) (resource : String)
    (options : RequestOptions) (transport : Nat → FetchOutcome) (r : Response)
    (ht : transport 0 = .resp r) (h5 : ¬ 500 ≤ r.status) (h429 : r.status ≠ 429) :
    retryFetch w resource options transport = ⟨.ok r, 1, []⟩ := by
  unfold retryFetch
  simp [retryFetchAux, fetchWithTimeout, ht, h5, h429]

/-- C2 (amended): a transport response with a non-retryable non-ok status
(e.g. 404) is never retried by part_000's retry policy — `retryFetch` returns
it after a single attempt without raising — and, in the part_000 variant
(whose `request` has the ok-check), a call with no request interceptors and
no `rejected` response handler then rejects with
`Error('Network response was not ok')` rather than resolving; in the
`src/index.ts` variant, by contrast, `request` has no ok-check and resolves
with the non-ok response (see the counterexample). -/
theorem request_404_rejects_notOk (w : FetchWrapper0) (resource : String)
    (options : RequestOptions) (transport : Nat → FetchOutcome) (r : Response)
    (hreq : w.requestInterceptors = [])
    (hrej : ∀ en ∈ w.responseInterceptors, en.rejected = none)
    (ht : ∀ i, transport i = .resp r)
    (hok : r.ok = false) (h5 : ¬ 500 ≤ r.status) (h429 : r.status ≠ 429) :
    (retryFetch w resource options transport).result = .ok r ∧
      (retryFetch w resource options transport).attempts = 1 ∧
      request w transport resource options = .error .notOk := by
  have hret := retryFetch_nonRetryable w resource options transport r (ht 0) h5 h429
  refine ⟨by rw [hret], by rw [hret], ?_⟩
  have hcore : ∀ b, coreResult w transport resource options b = .error .notOk := by
    intro b
    cases b with
    | false => simp [coreResult, fetchWithTimeout, ht 0, hok]
    | true => simp [coreResult, hret, hok]
  unfold request
  rw [hreq]
  simp only [applyInterceptors, hcore]
  exact funnelScan_noRejected w.responseInterceptors .notOk hrej

/-- Witness for C2 (amended): the plain part_000 wrapper with a constant-404
transport — one attempt, `retryFetch` returns the 404, and the call rejects
with the not-ok error. -/
theorem request_404_rejects_notOk_witness :
    (retryFetch c2wrapper0 "x" defaultOptions (fun _ => .resp ⟨404, none⟩)).result =
        .ok ⟨404, none⟩ ∧
      (retryFetch c2wrapper0 "x" defaultOptions (fun _ => .resp ⟨404, none⟩)).attempts = 1 ∧
      request c2wrapper0 (fun _ => .resp ⟨404, none⟩) "x" defaultOptions = .error .notOk := by
  exact request_404_rejects_notOk c2wrapper0 "x" defaultOptions (fun _ => .resp ⟨404, none⟩)
    ⟨404, none⟩ rfl (by intro en h; cases h) (fun _ => rfl) rfl (by decide) (by decide)

/-- C4 (amended): every failure raised inside either `try` block of part_000's
`request` — from the dispatch, the ok-check, or the response chain, i.e.
whenever `coreResult` fails once the request-interceptor stage has succeeded —
is fed to the funnel scan over the registered response interceptors: the
first entry carrying a `rejected` handler (entries before it having none) is
the only one invoked, with the failure; its return value becomes the call's
result and an error it raises propagates; with no `rejected` handler
anywhere, the original failure propagates unchanged.  (Failures raised by the
request-interceptor stage itself bypass the scan — see the counterexample —
so the original claim's "every failure raised during a request call" is too
broad.) -/
theorem request_failure_funnel (w : FetchWrapper0) (transport : Nat → FetchOutcome)
    (resource : String) (options o' : RequestOptions) (e : Err)
    (h1 : applyInterceptors w.requestInterceptors options = .ok o')
    (h2 : coreResult w transport resource o' (resolveRetryOnFail w options) = .error e) :
    request w transport resource options = funnelScan w.responseInterceptors e ∧
      ((∀ en ∈ w.responseInterceptors, en.rejected = none) →
        request w transport resource options = .error e) ∧
      (∀ (pre rest : List (Interceptor0 Response)) (en : Interceptor0 Response)
          (rej : Err → Except Err Response),
        w.responseInterceptors = pre ++ en :: rest →
        (∀ p ∈ pre, p.rejected = none) → en.rejected = some rej →
        request w transport resource options = rej e) := by
  have hmain : request w transport resource options = funnelScan w.responseInterceptors e := by
    unfold request
    simp [h1, h2]
  refine ⟨hmain, ?_, ?_⟩
  · intro hnone
    rw [hmain]
    exact funnelScan_noRejected w.responseInterceptors e hnone
  · intro pre rest en rej hsplit hpre hen
    rw [hmain, hsplit]
    exact funnelScan_firstRejected pre en rest rej e hpre hen

/-- Witness for C4 (amended): a wrapper whose first response interceptor has
no `rejected` handler and whose second recovers with a 200 response; a
throwing transport makes the dispatch fail with the timeout error, and the
call resolves with the recovery value. -/
theorem request_failure_funnel_witness :
    request c4witnessWrapper (fun _ => .netErr) "x" defaultOptions = .ok ⟨200, none⟩ := by
  have h := (request_failure_funnel c4witnessWrapper (fun _ => .netErr) "x" defaultOptions
    defaultOptions .timedOut rfl rfl).2.2 [⟨none, none⟩] []
    ⟨none, some fun _ => .ok ⟨200, none⟩⟩ (fun _ => .ok ⟨200, none⟩) rfl
    (by intro p hp; simp at hp; rw [hp]) rfl
  exact h

/-- Counterexample to C4 as stated: in part_000's `request` the
request-interceptor stage runs outside the `try`, so its failure `user 5`
propagates directly — the registered response interceptor's `rejected`
handler, which would have recovered with the 200 response (as `funnelScan`
shows), is never consulted. -/
theorem request_interceptor_failure_bypasses_funnel :
    request c4wrapper (fun _ => .resp ⟨200, none⟩) "x" defaultOptions = .error (.user 5) ∧
      funnelScan c4wrapper.responseInterceptors (.user 5) = .ok ⟨200, none⟩ ∧
      (Except.error (Err.user 5) : Except Err Response) ≠ .ok ⟨200, none⟩ := by
  refine ⟨rfl, rfl, by simp⟩

end FetchWrapper0

end FW
